import Mathlib

/-!
Verification of the JWT validator (`tink/jwt/_jwt_validator.py`).

Shallow embedding notes:
* Absolute instants (`datetime.datetime`) are modelled as integer seconds on a
  global timeline, paired with a flag recording whether the value carries
  timezone information (`tzinfo`).  Durations (`datetime.timedelta`) are
  integer seconds.  All comparisons in the source are order comparisons, so
  the choice of unit is irrelevant.
* Python truthiness is modelled explicitly: an `Optional[Text]` is falsy when
  it is `None` or the empty string, an `Optional[timedelta]` is falsy when it
  is `None` or zero, and a `datetime` object is always truthy.
* `raise ValueError` in the constructor becomes `Except String`, and
  `raise JwtInvalidError` in `validate` becomes `Except JwtError` where each
  `JwtError` constructor corresponds to exactly one `raise` site; the exact
  message text of each site is rendered by `JwtError.message`.
* The ambient clock read `datetime.datetime.now(tz=utc)` is modelled by the
  extra parameter `current_time` of `validate`.
-/

/-- An absolute instant together with the `tzinfo` presence flag of the
Python `datetime` carrying it. -/
structure Datetime where
  instant : Int
  tzinfo : Bool
deriving DecidableEq, Repr

/-- `_MAX_CLOCK_SKEW = datetime.timedelta(minutes=10)`, in seconds. -/
def _MAX_CLOCK_SKEW : Int := 600

/-- Python truthiness of an `Optional[Text]`: `None` and `""` are falsy. -/
def strTruthy : Option String → Bool
  | none => false
  | some s => !(s == "")

/-- Python truthiness of an `Optional[timedelta]`: `None` and the zero
duration are falsy. -/
def tdTruthy : Option Int → Bool
  | none => false
  | some t => !(t == 0)

/-- The constructor test `fixed_now and not fixed_now.tzinfo` (a `datetime`
object is always truthy). -/
def fixedNowNaive : Option Datetime → Bool
  | none => false
  | some fn => !fn.tzinfo

/-- The state of a successfully constructed `JwtValidator`. -/
structure JwtValidator where
  expected_issuer : Option String
  expected_subject : Option String
  expected_audience : Option String
  ignore_issuer : Bool
  ignore_subject : Bool
  ignore_audiences : Bool
  clock_skew : Int
  fixed_now : Option Datetime
deriving DecidableEq, Repr

/-- `JwtValidator.__init__`.  The guard order and the stored fields follow the
source: the three mutual-exclusion checks use Python truthiness (so the empty
string does not trigger them), `if clock_skew:` is truthy only for a non-`None`
non-zero duration (otherwise a zero skew is stored), and a truthy `fixed_now`
without `tzinfo` is rejected last. -/
def JwtValidator.init
    (expected_issuer expected_subject expected_audience : Option String)
    (ignore_issuer ignore_subject ignore_audiences : Bool)
    (clock_skew : Option Int) (fixed_now : Option Datetime) :
    Except String JwtValidator :=
  if strTruthy expected_issuer && ignore_issuer then
    .error "expected_issuer and ignore_issuer cannot be used together"
  else if strTruthy expected_subject && ignore_subject then
    .error "expected_subject and ignore_subject cannot be used together"
  else if strTruthy expected_audience && ignore_audiences then
    .error "expected_audience and ignore_audiences cannot be used together"
  else if tdTruthy clock_skew && decide (clock_skew.getD 0 > _MAX_CLOCK_SKEW) then
    .error "clock skew too large, max is 10 minutes"
  else if fixedNowNaive fixed_now then
    .error "fixed_now without tzinfo"
  else
    .ok {
      expected_issuer := expected_issuer
      expected_subject := expected_subject
      expected_audience := expected_audience
      ignore_issuer := ignore_issuer
      ignore_subject := ignore_subject
      ignore_audiences := ignore_audiences
      clock_skew := if tdTruthy clock_skew then clock_skew.getD 0 else 0
      fixed_now := fixed_now }

/-- `has_expected_issuer`: `self._expected_issuer is not None`. -/
def JwtValidator.has_expected_issuer (v : JwtValidator) : Bool :=
  v.expected_issuer.isSome

/-- `has_expected_subject`: `self._expected_subject is not None`. -/
def JwtValidator.has_expected_subject (v : JwtValidator) : Bool :=
  v.expected_subject.isSome

/-- `has_expected_audience`: `self._expected_audience is not None`. -/
def JwtValidator.has_expected_audience (v : JwtValidator) : Bool :=
  v.expected_audience.isSome

/-- `has_fixed_now`: `self._fixed_now is not None`. -/
def JwtValidator.has_fixed_now (v : JwtValidator) : Bool :=
  v.fixed_now.isSome

/-- The claim-set view used by `validate`: each field is optional and exposed
through a presence predicate plus a getter (modelled by the `Option`). -/
structure RawJwt where
  issuer : Option String
  subject : Option String
  audiences : Option (List String)
  expiration : Option Int
  not_before : Option Int
deriving DecidableEq, Repr

/-- `raw_jwt.has_issuer()`. -/
def RawJwt.has_issuer (r : RawJwt) : Bool := r.issuer.isSome

/-- `raw_jwt.has_subject()`. -/
def RawJwt.has_subject (r : RawJwt) : Bool := r.subject.isSome

/-- `raw_jwt.has_audiences()`. -/
def RawJwt.has_audiences (r : RawJwt) : Bool := r.audiences.isSome

/-- `raw_jwt.has_expiration()`. -/
def RawJwt.has_expiration (r : RawJwt) : Bool := r.expiration.isSome

/-- `raw_jwt.has_not_before()`. -/
def RawJwt.has_not_before (r : RawJwt) : Bool := r.not_before.isSome

/-- One constructor per `raise _jwt_error.JwtInvalidError(...)` site of
`validate`, carrying the data interpolated into the message. -/
inductive JwtError where
  | hasExpired (expiration : Int)
  | notBefore (not_before : Int)
  | missingExpectedIssuer (expected : String)
  | issuerMismatch (expected got : String)
  | unexpectedIssuer
  | missingExpectedSubject (expected : String)
  | subjectMismatch (expected got : String)
  | unexpectedSubject
  | missingExpectedAudience (expected : String)
  | unexpectedAudience
deriving DecidableEq, Repr

/-- The human-readable message of each `raise` site, as formatted by the
source. -/
def JwtError.message : JwtError → String
  | .hasExpired e => "token has expired since " ++ toString e
  | .notBefore n => "token cannot be used before " ++ toString n
  | .missingExpectedIssuer ei =>
      "invalid JWT; missing expected issuer " ++ ei ++ "."
  | .issuerMismatch ei got =>
      "invalid JWT; expected issuer " ++ ei ++ ", but got " ++ got
  | .unexpectedIssuer => "invalid JWT; token has issuer set, but validator not."
  | .missingExpectedSubject es =>
      "invalid JWT; missing expected subject " ++ es ++ "."
  | .subjectMismatch es got =>
      "invalid JWT; expected subject " ++ es ++ ", but got " ++ got
  | .unexpectedSubject =>
      "invalid JWT; token has subject set, but validator not."
  | .missingExpectedAudience ea =>
      "invalid JWT; missing expected audience " ++ ea ++ "."
  | .unexpectedAudience =>
      "invalid JWT; token has audience set, but validator not."

/-- Is this error one of the two time-check errors? -/
def JwtError.isTimeError : JwtError → Bool
  | .hasExpired _ => true
  | .notBefore _ => true
  | _ => false

/-- Is this error produced by the issuer check? -/
def JwtError.isIssuerError : JwtError → Bool
  | .missingExpectedIssuer _ => true
  | .issuerMismatch _ _ => true
  | .unexpectedIssuer => true
  | _ => false

/-- Is this error produced by the subject check? -/
def JwtError.isSubjectError : JwtError → Bool
  | .missingExpectedSubject _ => true
  | .subjectMismatch _ _ => true
  | .unexpectedSubject => true
  | _ => false

/-- Is this error produced by the audience check? -/
def JwtError.isAudienceError : JwtError → Bool
  | .missingExpectedAudience _ => true
  | .unexpectedAudience => true
  | _ => false

/-- `now` resolution at the top of `validate`: `fixed_now` if present, else
the ambient UTC clock (the `current_time` parameter). -/
def resolveNow (v : JwtValidator) (current_time : Int) : Int :=
  match v.fixed_now with
  | some fn => fn.instant
  | none => current_time

/-- Expiration check: `raw_jwt.has_expiration() and
raw_jwt.expiration() <= now - validator.clock_skew()`. -/
def checkExpiration (v : JwtValidator) (r : RawJwt) (now : Int) :
    Except JwtError Unit :=
  match r.expiration with
  | some exp =>
      if exp ≤ now - v.clock_skew then .error (.hasExpired exp) else .ok ()
  | none => .ok ()

/-- Not-before check: `raw_jwt.has_not_before() and
raw_jwt.not_before() > now + validator.clock_skew()`. -/
def checkNotBefore (v : JwtValidator) (r : RawJwt) (now : Int) :
    Except JwtError Unit :=
  match r.not_before with
  | some nbf =>
      if nbf > now + v.clock_skew then .error (.notBefore nbf) else .ok ()
  | none => .ok ()

/-- Issuer check of `validate` (the `has_expected_issuer` branch and its
`else` branch). -/
def checkIssuer (v : JwtValidator) (r : RawJwt) : Except JwtError Unit :=
  match v.expected_issuer with
  | some ei =>
      match r.issuer with
      | none => .error (.missingExpectedIssuer ei)
      | some iss =>
          if ei ≠ iss then .error (.issuerMismatch ei iss) else .ok ()
  | none =>
      if r.has_issuer && !v.ignore_issuer then .error .unexpectedIssuer
      else .ok ()

/-- Subject check of `validate`, symmetric to the issuer check. -/
def checkSubject (v : JwtValidator) (r : RawJwt) : Except JwtError Unit :=
  match v.expected_subject with
  | some es =>
      match r.subject with
      | none => .error (.missingExpectedSubject es)
      | some sub =>
          if es ≠ sub then .error (.subjectMismatch es sub) else .ok ()
  | none =>
      if r.has_subject && !v.ignore_subject then .error .unexpectedSubject
      else .ok ()

/-- Audience check of `validate`: with an expected audience, fail unless the
claim-set has audiences and the expected one is a member; otherwise fail when
audiences are present and not ignored. -/
def checkAudience (v : JwtValidator) (r : RawJwt) : Except JwtError Unit :=
  match v.expected_audience with
  | some ea =>
      match r.audiences with
      | none => .error (.missingExpectedAudience ea)
      | some auds =>
          if !(auds.contains ea) then .error (.missingExpectedAudience ea)
          else .ok ()
  | none =>
      if r.has_audiences && !v.ignore_audiences then .error .unexpectedAudience
      else .ok ()

/-- `validate(validator, raw_jwt)`: resolve `now` once, then run the five
checks in source order, stopping at the first failure. -/
def validate (v : JwtValidator) (r : RawJwt) (current_time : Int) :
    Except JwtError Unit :=
  let now := resolveNow v current_time
  match checkExpiration v r now with
  | .error e => .error e
  | .ok _ =>
    match checkNotBefore v r now with
    | .error e => .error e
    | .ok _ =>
      match checkIssuer v r with
      | .error e => .error e
      | .ok _ =>
        match checkSubject v r with
        | .error e => .error e
        | .ok _ => checkAudience v r

/-- First error of a list of check results, `.ok ()` when all pass. -/
def firstFailure : List (Except JwtError Unit) → Except JwtError Unit
  | [] => .ok ()
  | c :: rest =>
    match c with
    | .error e => .error e
    | .ok _ => firstFailure rest

/-- A validator with a 5-minute skew and a deterministic clock at instant
1000, used in concrete instances. -/
def exampleValidator : JwtValidator :=
  { expected_issuer := none
    expected_subject := none
    expected_audience := none
    ignore_issuer := false
    ignore_subject := false
    ignore_audiences := false
    clock_skew := 300
    fixed_now := some ⟨1000, true⟩ }

/-- A validator with zero skew and a deterministic clock at instant 1000. -/
def zeroSkewValidator : JwtValidator :=
  { expected_issuer := none
    expected_subject := none
    expected_audience := none
    ignore_issuer := false
    ignore_subject := false
    ignore_audiences := false
    clock_skew := 0
    fixed_now := some ⟨1000, true⟩ }

/-- A validator expecting audience `"a"`, deterministic clock at instant 0. -/
def audienceValidator : JwtValidator :=
  { expected_issuer := none
    expected_subject := none
    expected_audience := some "a"
    ignore_issuer := false
    ignore_subject := false
    ignore_audiences := false
    clock_skew := 0
    fixed_now := some ⟨0, true⟩ }

/-- A validator expecting issuer `"idp1"`, deterministic clock at instant 0. -/
def issuerValidator : JwtValidator :=
  { expected_issuer := some "idp1"
    expected_subject := none
    expected_audience := none
    ignore_issuer := false
    ignore_subject := false
    ignore_audiences := false
    clock_skew := 0
    fixed_now := some ⟨0, true⟩ }

/-- The empty claim-set. -/
def emptyJwt : RawJwt :=
  { issuer := none, subject := none, audiences := none,
    expiration := none, not_before := none }

/-- A claim-set carrying only an expiration at instant 700. -/
def expiredJwt : RawJwt :=
  { issuer := none, subject := none, audiences := none,
    expiration := some 700, not_before := none }

/-- A claim-set carrying only a not-before at instant 2000. -/
def notYetValidJwt : RawJwt :=
  { issuer := none, subject := none, audiences := none,
    expiration := none, not_before := some 2000 }

/-- A claim-set that is both long expired and not yet valid relative to
instant 1000. -/
def expiredAndNotYetValidJwt : RawJwt :=
  { issuer := none, subject := none, audiences := none,
    expiration := some 0, not_before := some 2000 }

/-- A claim-set carrying only the issuer `"x"`. -/
def jwtWithIssuerX : RawJwt :=
  { issuer := some "x", subject := none, audiences := none,
    expiration := none, not_before := none }

/-- A claim-set carrying only the issuer `"idp1"`. -/
def jwtWithIssuerIdp1 : RawJwt :=
  { issuer := some "idp1", subject := none, audiences := none,
    expiration := none, not_before := none }

/-- A claim-set carrying only the subject `"x"`. -/
def jwtWithSubjectX : RawJwt :=
  { issuer := none, subject := some "x", audiences := none,
    expiration := none, not_before := none }

/-- A claim-set carrying only the audiences `["x"]`. -/
def jwtWithAudienceX : RawJwt :=
  { issuer := none, subject := none, audiences := some ["x"],
    expiration := none, not_before := none }

/-- A claim-set carrying only the audiences `["a", "b"]`. -/
def jwtWithAudiencesAB : RawJwt :=
  { issuer := none, subject := none, audiences := some ["a", "b"],
    expiration := none, not_before := none }

/-- The validator built from `expected_issuer = ""` with
`ignore_issuer = True`. -/
def emptyIssuerValidator : JwtValidator :=
  { expected_issuer := some "", expected_subject := none,
    expected_audience := none, ignore_issuer := true, ignore_subject := false,
    ignore_audiences := false, clock_skew := 0, fixed_now := none }

/-- The validator built from `expected_subject = ""` with
`ignore_subject = True`. -/
def emptySubjectValidator : JwtValidator :=
  { expected_issuer := none, expected_subject := some "",
    expected_audience := none, ignore_issuer := false, ignore_subject := true,
    ignore_audiences := false, clock_skew := 0, fixed_now := none }

/-- The validator built from `expected_audience = ""` with
`ignore_audiences = True`. -/
def emptyAudienceValidator : JwtValidator :=
  { expected_issuer := none, expected_subject := none,
    expected_audience := some "", ignore_issuer := false,
    ignore_subject := false, ignore_audiences := true, clock_skew := 0,
    fixed_now := none }

/-- Decidable equality of results, so that concrete runs can be checked by
`decide`. -/
instance {ε α : Type} [DecidableEq ε] [DecidableEq α] :
    DecidableEq (Except ε α) := fun a b =>
  match a, b with
  | .ok x, .ok y =>
      if h : x = y then .isTrue (by rw [h])
      else .isFalse (fun he => h (by injection he))
  | .error x, .error y =>
      if h : x = y then .isTrue (by rw [h])
      else .isFalse (fun he => h (by injection he))
  | .ok _, .error _ => .isFalse (fun he => Except.noConfusion he)
  | .error _, .ok _ => .isFalse (fun he => Except.noConfusion he)

/-! ### Helper lemmas about the individual checks -/

theorem checkExpiration_error_shape (v : JwtValidator) (r : RawJwt) (now : Int)
    (e : JwtError) (h : checkExpiration v r now = .error e) :
    ∃ exp, r.expiration = some exp ∧ e = .hasExpired exp ∧
      exp ≤ now - v.clock_skew := by
  unfold checkExpiration at h
  split at h
  next exp hx =>
    split at h
    next hle =>
      injection h with h2
      exact ⟨exp, hx, h2.symm, hle⟩
    next => cases h
  next => cases h

theorem checkNotBefore_error_shape (v : JwtValidator) (r : RawJwt) (now : Int)
    (e : JwtError) (h : checkNotBefore v r now = .error e) :
    ∃ nbf, r.not_before = some nbf ∧ e = .notBefore nbf ∧
      now + v.clock_skew < nbf := by
  unfold checkNotBefore at h
  split at h
  next nbf hx =>
    split at h
    next hgt =>
      injection h with h2
      exact ⟨nbf, hx, h2.symm, hgt⟩
    next => cases h
  next => cases h

theorem checkIssuer_error_shape (v : JwtValidator) (r : RawJwt)
    (e : JwtError) (h : checkIssuer v r = .error e) :
    e.isIssuerError = true := by
  unfold checkIssuer at h
  split at h
  · split at h
    · injection h with h2; rw [← h2]; rfl
    · split at h
      · injection h with h2; rw [← h2]; rfl
      · cases h
  · split at h
    · injection h with h2; rw [← h2]; rfl
    · cases h

theorem checkSubject_error_shape (v : JwtValidator) (r : RawJwt)
    (e : JwtError) (h : checkSubject v r = .error e) :
    e.isSubjectError = true := by
  unfold checkSubject at h
  split at h
  · split at h
    · injection h with h2; rw [← h2]; rfl
    · split at h
      · injection h with h2; rw [← h2]; rfl
      · cases h
  · split at h
    · injection h with h2; rw [← h2]; rfl
    · cases h

theorem checkAudience_error_shape (v : JwtValidator) (r : RawJwt)
    (e : JwtError) (h : checkAudience v r = .error e) :
    e.isAudienceError = true := by
  unfold checkAudience at h
  split at h
  · split at h
    · injection h with h2; rw [← h2]; rfl
    · split at h
      · injection h with h2; rw [← h2]; rfl
      · cases h
  · split at h
    · injection h with h2; rw [← h2]; rfl
    · cases h

/-! ### Helper lemmas about the sequencing inside `validate` -/

theorem validate_unfold (v : JwtValidator) (r : RawJwt) (t : Int) :
    validate v r t =
      match checkExpiration v r (resolveNow v t) with
      | .error e => .error e
      | .ok _ =>
        match checkNotBefore v r (resolveNow v t) with
        | .error e => .error e
        | .ok _ =>
          match checkIssuer v r with
          | .error e => .error e
          | .ok _ =>
            match checkSubject v r with
            | .error e => .error e
            | .ok _ => checkAudience v r := rfl

theorem validate_exp_error (v : JwtValidator) (r : RawJwt) (t : Int)
    (e : JwtError) (h : checkExpiration v r (resolveNow v t) = .error e) :
    validate v r t = .error e := by
  rw [validate_unfold, h]

theorem validate_nbf_error (v : JwtValidator) (r : RawJwt) (t : Int)
    (e : JwtError) (hexp : checkExpiration v r (resolveNow v t) = .ok ())
    (h : checkNotBefore v r (resolveNow v t) = .error e) :
    validate v r t = .error e := by
  rw [validate_unfold, hexp, h]

theorem validate_time_ok (v : JwtValidator) (r : RawJwt) (t : Int)
    (hexp : checkExpiration v r (resolveNow v t) = .ok ())
    (hnbf : checkNotBefore v r (resolveNow v t) = .ok ()) :
    validate v r t =
      match checkIssuer v r with
      | .error e => .error e
      | .ok _ =>
        match checkSubject v r with
        | .error e => .error e
        | .ok _ => checkAudience v r := by
  rw [validate_unfold, hexp, hnbf]

theorem validate_all_ok (v : JwtValidator) (r : RawJwt) (t : Int)
    (hexp : checkExpiration v r (resolveNow v t) = .ok ())
    (hnbf : checkNotBefore v r (resolveNow v t) = .ok ())
    (hiss : checkIssuer v r = .ok ())
    (hsub : checkSubject v r = .ok ()) :
    validate v r t = checkAudience v r := by
  rw [validate_unfold, hexp, hnbf, hiss, hsub]

theorem validate_error_inv (v : JwtValidator) (r : RawJwt) (t : Int)
    (e : JwtError) (h : validate v r t = .error e) :
    checkExpiration v r (resolveNow v t) = .error e ∨
    (checkExpiration v r (resolveNow v t) = .ok () ∧
      (checkNotBefore v r (resolveNow v t) = .error e ∨
       (checkNotBefore v r (resolveNow v t) = .ok () ∧
        (checkIssuer v r = .error e ∨
         (checkIssuer v r = .ok () ∧
          (checkSubject v r = .error e ∨
           (checkSubject v r = .ok () ∧ checkAudience v r = .error e))))))) := by
  cases h1 : checkExpiration v r (resolveNow v t) with
  | error e1 =>
      rw [validate_exp_error v r t e1 h1] at h
      injection h with h2
      subst h2
      exact .inl rfl
  | ok u =>
      cases u
      cases h2 : checkNotBefore v r (resolveNow v t) with
      | error e2 =>
          rw [validate_nbf_error v r t e2 h1 h2] at h
          injection h with h3
          subst h3
          exact .inr ⟨rfl, .inl rfl⟩
      | ok u2 =>
          cases u2
          rw [validate_time_ok v r t h1 h2] at h
          cases h3 : checkIssuer v r with
          | error e3 =>
              rw [h3] at h
              injection h with h4
              subst h4
              exact .inr ⟨rfl, .inr ⟨rfl, .inl rfl⟩⟩
          | ok u3 =>
              cases u3
              rw [h3] at h
              cases h4 : checkSubject v r with
              | error e4 =>
                  rw [h4] at h
                  injection h with h5
                  subst h5
                  exact .inr ⟨rfl, .inr ⟨rfl, .inr ⟨rfl, .inl rfl⟩⟩⟩
              | ok u4 =>
                  cases u4
                  rw [h4] at h
                  exact .inr ⟨rfl, .inr ⟨rfl, .inr ⟨rfl, .inr ⟨rfl, h⟩⟩⟩⟩

/-! ### Characterizations of the two time checks through `validate` -/

theorem validate_expired_iff (v : JwtValidator) (r : RawJwt) (t exp : Int)
    (h : r.expiration = some exp) :
    validate v r t = .error (.hasExpired exp) ↔
      exp ≤ resolveNow v t - v.clock_skew := by
  constructor
  · intro hval
    rcases validate_error_inv v r t _ hval with h1 | ⟨-, h1 | ⟨-, h1 | ⟨-, h1 | ⟨-, h1⟩⟩⟩⟩
    · obtain ⟨exp2, hx, he, hle⟩ := checkExpiration_error_shape v r _ _ h1
      rw [h] at hx
      injection hx with hx
      injection he with he
      rw [he]
      exact hle
    · obtain ⟨nbf, -, he, -⟩ := checkNotBefore_error_shape v r _ _ h1
      cases he
    · have := checkIssuer_error_shape v r _ h1
      cases this
    · have := checkSubject_error_shape v r _ h1
      cases this
    · have := checkAudience_error_shape v r _ h1
      cases this
  · intro hle
    apply validate_exp_error
    simp [checkExpiration, h, hle]

theorem validate_no_expired_of_none (v : JwtValidator) (r : RawJwt) (t : Int)
    (x : Int) (h : r.expiration = none) :
    validate v r t ≠ .error (.hasExpired x) := by
  intro hval
  rcases validate_error_inv v r t _ hval with h1 | ⟨-, h1 | ⟨-, h1 | ⟨-, h1 | ⟨-, h1⟩⟩⟩⟩
  · obtain ⟨exp2, hx, -, -⟩ := checkExpiration_error_shape v r _ _ h1
    rw [h] at hx
    cases hx
  · obtain ⟨nbf, -, he, -⟩ := checkNotBefore_error_shape v r _ _ h1
    cases he
  · have := checkIssuer_error_shape v r _ h1
    cases this
  · have := checkSubject_error_shape v r _ h1
    cases this
  · have := checkAudience_error_shape v r _ h1
    cases this

theorem validate_notBefore_iff (v : JwtValidator) (r : RawJwt) (t nbf : Int)
    (h : r.not_before = some nbf) :
    validate v r t = .error (.notBefore nbf) ↔
      (checkExpiration v r (resolveNow v t) = .ok () ∧
        resolveNow v t + v.clock_skew < nbf) := by
  constructor
  · intro hval
    rcases validate_error_inv v r t _ hval with h1 | ⟨hok, h1 | ⟨-, h1 | ⟨-, h1 | ⟨-, h1⟩⟩⟩⟩
    · obtain ⟨exp2, -, he, -⟩ := checkExpiration_error_shape v r _ _ h1
      cases he
    · obtain ⟨nbf2, hx, he, hgt⟩ := checkNotBefore_error_shape v r _ _ h1
      rw [h] at hx
      injection hx with hx
      injection he with he
      rw [he]
      exact ⟨hok, hgt⟩
    · have := checkIssuer_error_shape v r _ h1
      cases this
    · have := checkSubject_error_shape v r _ h1
      cases this
    · have := checkAudience_error_shape v r _ h1
      cases this
  · rintro ⟨hok, hgt⟩
    apply validate_nbf_error v r t _ hok
    simp [checkNotBefore, h, hgt]

theorem validate_no_time_error_of_none (v : JwtValidator) (r : RawJwt) (t : Int)
    (e : JwtError) (hexp : r.expiration = none) (hnbf : r.not_before = none)
    (he : e.isTimeError = true) :
    validate v r t ≠ .error e := by
  intro hval
  rcases validate_error_inv v r t _ hval with h1 | ⟨-, h1 | ⟨-, h1 | ⟨-, h1 | ⟨-, h1⟩⟩⟩⟩
  · obtain ⟨exp2, hx, -, -⟩ := checkExpiration_error_shape v r _ _ h1
    rw [hexp] at hx
    cases hx
  · obtain ⟨nbf2, hx, -, -⟩ := checkNotBefore_error_shape v r _ _ h1
    rw [hnbf] at hx
    cases hx
  · have h2 := checkIssuer_error_shape v r _ h1
    revert he
    cases e <;> simp [JwtError.isIssuerError, JwtError.isTimeError] at h2 ⊢
  · have h2 := checkSubject_error_shape v r _ h1
    revert he
    cases e <;> simp [JwtError.isSubjectError, JwtError.isTimeError] at h2 ⊢
  · have h2 := checkAudience_error_shape v r _ h1
    revert he
    cases e <;> simp [JwtError.isAudienceError, JwtError.isTimeError] at h2 ⊢

/-! ### Helper lemmas about construction -/

theorem stored_skew (cs : Int) :
    (if tdTruthy (some cs) then (some cs).getD 0 else 0) = cs := by
  by_cases h : cs = 0 <;> simp [tdTruthy, h]

theorem init_ok (ei es ea : Option String) (ii igs iga : Bool)
    (cs : Option Int) (fn : Option Datetime)
    (h1 : (strTruthy ei && ii) = false)
    (h2 : (strTruthy es && igs) = false)
    (h3 : (strTruthy ea && iga) = false)
    (hcs : (tdTruthy cs && decide (cs.getD 0 > _MAX_CLOCK_SKEW)) = false)
    (h4 : fixedNowNaive fn = false) :
    JwtValidator.init ei es ea ii igs iga cs fn =
      .ok { expected_issuer := ei, expected_subject := es,
            expected_audience := ea, ignore_issuer := ii,
            ignore_subject := igs, ignore_audiences := iga,
            clock_skew := if tdTruthy cs then cs.getD 0 else 0,
            fixed_now := fn } := by
  unfold JwtValidator.init
  rw [h1, h2, h3, hcs, h4]
  rfl

theorem init_isOk_iff (ei es ea : Option String) (ii igs iga : Bool)
    (cs : Option Int) (fn : Option Datetime) :
    (JwtValidator.init ei es ea ii igs iga cs fn).isOk = true ↔
      ((strTruthy ei && ii) = false ∧ (strTruthy es && igs) = false ∧
       (strTruthy ea && iga) = false ∧
       (tdTruthy cs && decide (cs.getD 0 > _MAX_CLOCK_SKEW)) = false ∧
       fixedNowNaive fn = false) := by
  unfold JwtValidator.init
  by_cases h1 : (strTruthy ei && ii) = true
  · simp [h1, Except.isOk, Except.toBool]
  · by_cases h2 : (strTruthy es && igs) = true
    · simp [h1, h2, Except.isOk, Except.toBool]
    · by_cases h3 : (strTruthy ea && iga) = true
      · simp [h1, h2, h3, Except.isOk, Except.toBool]
      · by_cases h4 : (tdTruthy cs && decide (cs.getD 0 > _MAX_CLOCK_SKEW)) = true
        · simp [h1, h2, h3, h4, Except.isOk, Except.toBool]
        · by_cases h5 : fixedNowNaive fn = true
          · simp [h1, h2, h3, h4, h5, Except.isOk, Except.toBool]
          · simp [h1, h2, h3, h4, h5, Except.isOk, Except.toBool]

/-! ### Helper lemmas locating issuer and subject errors -/

theorem validate_iss_error (v : JwtValidator) (r : RawJwt) (t : Int)
    (e : JwtError) (hexp : checkExpiration v r (resolveNow v t) = .ok ())
    (hnbf : checkNotBefore v r (resolveNow v t) = .ok ())
    (h : checkIssuer v r = .error e) : validate v r t = .error e := by
  rw [validate_time_ok v r t hexp hnbf, h]

theorem validate_sub_error (v : JwtValidator) (r : RawJwt) (t : Int)
    (e : JwtError) (hexp : checkExpiration v r (resolveNow v t) = .ok ())
    (hnbf : checkNotBefore v r (resolveNow v t) = .ok ())
    (hiss : checkIssuer v r = .ok ())
    (h : checkSubject v r = .error e) : validate v r t = .error e := by
  rw [validate_time_ok v r t hexp hnbf, hiss, h]

theorem validate_issuer_error_inv (v : JwtValidator) (r : RawJwt) (t : Int)
    (e : JwtError) (he : e.isIssuerError = true)
    (h : validate v r t = .error e) : checkIssuer v r = .error e := by
  rcases validate_error_inv v r t e h with h1 | ⟨-, h1 | ⟨-, h1 | ⟨-, h1 | ⟨-, h1⟩⟩⟩⟩
  · obtain ⟨x, -, he2, -⟩ := checkExpiration_error_shape v r _ _ h1
    subst he2
    simp [JwtError.isIssuerError] at he
  · obtain ⟨x, -, he2, -⟩ := checkNotBefore_error_shape v r _ _ h1
    subst he2
    simp [JwtError.isIssuerError] at he
  · exact h1
  · have h2 := checkSubject_error_shape v r _ h1
    cases e <;> simp_all [JwtError.isIssuerError, JwtError.isSubjectError]
  · have h2 := checkAudience_error_shape v r _ h1
    cases e <;> simp_all [JwtError.isIssuerError, JwtError.isAudienceError]

theorem validate_subject_error_inv (v : JwtValidator) (r : RawJwt) (t : Int)
    (e : JwtError) (he : e.isSubjectError = true)
    (h : validate v r t = .error e) : checkSubject v r = .error e := by
  rcases validate_error_inv v r t e h with h1 | ⟨-, h1 | ⟨-, h1 | ⟨-, h1 | ⟨-, h1⟩⟩⟩⟩
  · obtain ⟨x, -, he2, -⟩ := checkExpiration_error_shape v r _ _ h1
    subst he2
    simp [JwtError.isSubjectError] at he
  · obtain ⟨x, -, he2, -⟩ := checkNotBefore_error_shape v r _ _ h1
    subst he2
    simp [JwtError.isSubjectError] at he
  · have h2 := checkIssuer_error_shape v r _ h1
    cases e <;> simp_all [JwtError.isIssuerError, JwtError.isSubjectError]
  · exact h1
  · have h2 := checkAudience_error_shape v r _ h1
    cases e <;> simp_all [JwtError.isSubjectError, JwtError.isAudienceError]

/-! ### The claims -/

/-- Claim C1, counterexample: `expected_issuer` set to the empty string (so
`has_expected_issuer` is true, i.e. the expectation is set) together with
`ignore_issuer = true` is accepted by the constructor, refuting the claim that
construction with both set always fails. -/
theorem C1_counterexample :
    ∃ v, JwtValidator.init (some "") none none true false false none none =
        .ok v ∧ v.has_expected_issuer = true ∧ v.ignore_issuer = true :=
  ⟨_, rfl, rfl, rfl⟩

/-- Claim C1 (amended): for every configuration in which `expected_issuer` is
set to a non-empty string, construction succeeds only if `ignore_issuer` is
false — with both set this way it fails with a ConfigurationError (the
constructor's error channel, `isOk = false`); the same mutual exclusion holds
symmetrically for `expected_subject`/`ignore_subject` and
`expected_audience`/`ignore_audiences`; and construction with any
non-violating combination (no pair with a non-empty expectation and its
ignore flag, skew within bound, `fixed_now` with tzinfo) succeeds. -/
theorem C1_mutual_exclusion (ei es ea : Option String) (ii igs iga : Bool)
    (cs : Option Int) (fn : Option Datetime) :
    (∀ s, ei = some s → s ≠ "" → ii = true →
      (JwtValidator.init ei es ea ii igs iga cs fn).isOk = false) ∧
    (∀ s, es = some s → s ≠ "" → igs = true →
      (JwtValidator.init ei es ea ii igs iga cs fn).isOk = false) ∧
    (∀ s, ea = some s → s ≠ "" → iga = true →
      (JwtValidator.init ei es ea ii igs iga cs fn).isOk = false) ∧
    ((∀ s, ei = some s → s = "" ∨ ii = false) →
     (∀ s, es = some s → s = "" ∨ igs = false) →
     (∀ s, ea = some s → s = "" ∨ iga = false) →
     (∀ c, cs = some c → c ≤ _MAX_CLOCK_SKEW) →
     (∀ d, fn = some d → d.tzinfo = true) →
     (JwtValidator.init ei es ea ii igs iga cs fn).isOk = true) := by
  refine ⟨?_, ?_, ?_, ?_⟩
  · intro s hs hne hii
    subst hs; subst hii
    cases hok : (JwtValidator.init (some s) es ea true igs iga cs fn).isOk
    · rfl
    · exfalso
      have h2 := (init_isOk_iff (some s) es ea true igs iga cs fn).mp hok
      have hst : strTruthy (some s) = true := by simp [strTruthy, hne]
      simp [hst] at h2
  · intro s hs hne higs
    subst hs; subst higs
    cases hok : (JwtValidator.init ei (some s) ea ii true iga cs fn).isOk
    · rfl
    · exfalso
      have h2 := (init_isOk_iff ei (some s) ea ii true iga cs fn).mp hok
      have hst : strTruthy (some s) = true := by simp [strTruthy, hne]
      simp [hst] at h2
  · intro s hs hne higa
    subst hs; subst higa
    cases hok : (JwtValidator.init ei es (some s) ii igs true cs fn).isOk
    · rfl
    · exfalso
      have h2 := (init_isOk_iff ei es (some s) ii igs true cs fn).mp hok
      have hst : strTruthy (some s) = true := by simp [strTruthy, hne]
      simp [hst] at h2
  · intro hei hes hea hcs hfn
    rw [init_isOk_iff]
    refine ⟨?_, ?_, ?_, ?_, ?_⟩
    · cases ei with
      | none => rfl
      | some s =>
          rcases hei s rfl with h | h
          · subst h; rfl
          · subst h; simp
    · cases es with
      | none => rfl
      | some s =>
          rcases hes s rfl with h | h
          · subst h; rfl
          · subst h; simp
    · cases ea with
      | none => rfl
      | some s =>
          rcases hea s rfl with h | h
          · subst h; rfl
          · subst h; simp
    · cases cs with
      | none => rfl
      | some c =>
          have hc := hcs c rfl
          by_cases h0 : c = 0
          · subst h0; rfl
          · have hd : decide ((some c : Option Int).getD 0 > _MAX_CLOCK_SKEW)
                = false := by
              simp [_MAX_CLOCK_SKEW] at hc ⊢
              omega
            rw [hd, Bool.and_false]
    · cases fn with
      | none => rfl
      | some d => simp [fixedNowNaive, hfn d rfl]

/-- Witness for C1: a non-empty expected issuer together with
`ignore_issuer = true` is rejected, and the same configuration with the flag
cleared is accepted. -/
theorem C1_mutual_exclusion_witness :
    (JwtValidator.init (some "iss") none none true false false none
      none).isOk = false ∧
    (JwtValidator.init (some "iss") none none false false false none
      none).isOk = true := by
  constructor
  · exact (C1_mutual_exclusion (some "iss") none none true false false none
      none).1 "iss" rfl (by decide) rfl
  · exact (C1_mutual_exclusion (some "iss") none none false false false none
      none).2.2.2 (fun s _ => Or.inr rfl) (fun s h => Option.noConfusion h)
      (fun s h => Option.noConfusion h) (fun c h => Option.noConfusion h)
      (fun d h => Option.noConfusion h)

/-- Claim C2: with an expiration `exp` present, `validate` fails with the
expiration error exactly when `exp ≤ now − clock_skew` (`now` being
`fixed_now` if set, else the ambient UTC clock); with `clock_skew` of 5
minutes (300 s), `exp = now` passes the expiration check, `exp = now − 5 min`
fails, `exp = now − 4 min 59 s` passes; without an expiration the expiration
check never fails. -/
theorem C2_expiration (v : JwtValidator) (r : RawJwt) (t exp : Int) :
    (r.expiration = some exp →
      (validate v r t = .error (.hasExpired exp) ↔
        exp ≤ resolveNow v t - v.clock_skew)) ∧
    (r.expiration = none → validate v r t ≠ .error (.hasExpired exp)) ∧
    (v.clock_skew = 300 → r.expiration = some (resolveNow v t) →
      validate v r t ≠ .error (.hasExpired (resolveNow v t))) ∧
    (v.clock_skew = 300 → r.expiration = some (resolveNow v t - 300) →
      validate v r t = .error (.hasExpired (resolveNow v t - 300))) ∧
    (v.clock_skew = 300 → r.expiration = some (resolveNow v t - 299) →
      validate v r t ≠ .error (.hasExpired (resolveNow v t - 299))) := by
  refine ⟨fun h => validate_expired_iff v r t exp h,
    fun h => validate_no_expired_of_none v r t exp h, ?_, ?_, ?_⟩
  · intro hskew hexp hval
    rw [validate_expired_iff v r t _ hexp, hskew] at hval
    omega
  · intro hskew hexp
    rw [validate_expired_iff v r t _ hexp, hskew]
  · intro hskew hexp hval
    rw [validate_expired_iff v r t _ hexp, hskew] at hval
    omega

/-- Witness for C2: against `exampleValidator` (5-minute skew, clock fixed at
1000), a claim-set expiring at 700 (= now − 5 min) is rejected as expired. -/
theorem C2_expiration_witness :
    validate exampleValidator expiredJwt 17 = .error (.hasExpired 700) :=
  ((C2_expiration exampleValidator expiredJwt 17 700).1 rfl).mpr (by decide)

/-- Claim C3: when the earlier checks pass, with `expected_audience` set
`validate` passes the audience check exactly when the claim-set has a
(necessarily non-empty) audience set containing the expected audience (exact
string membership), and otherwise fails with the missing-expected-audience
error; with `expected_audience` not set, a claim-set that has audiences
passes exactly when `ignore_audiences` is true. -/
theorem C3_audience (v : JwtValidator) (r : RawJwt) (t : Int)
    (hexp : checkExpiration v r (resolveNow v t) = .ok ())
    (hnbf : checkNotBefore v r (resolveNow v t) = .ok ())
    (hiss : checkIssuer v r = .ok ())
    (hsub : checkSubject v r = .ok ()) :
    (∀ ea, v.expected_audience = some ea →
      ((validate v r t = .ok ()) ↔
        ∃ auds, r.audiences = some auds ∧ ea ∈ auds) ∧
      (validate v r t ≠ .ok () →
        validate v r t = .error (.missingExpectedAudience ea))) ∧
    (v.expected_audience = none → r.has_audiences = true →
      ((validate v r t = .ok ()) ↔ v.ignore_audiences = true)) := by
  have hv := validate_all_ok v r t hexp hnbf hiss hsub
  constructor
  · intro ea hea
    constructor
    · rw [hv]
      unfold checkAudience
      rw [hea]
      cases ha : r.audiences with
      | none => simp
      | some auds =>
          by_cases hmem : auds.contains ea = true
          · have hm : ea ∈ auds := by simpa using hmem
            simp [hmem, hm]
          · have hm : ea ∉ auds := by simpa using hmem
            simp [hmem, hm]
    · intro hne
      rw [hv] at hne ⊢
      unfold checkAudience at hne ⊢
      rw [hea] at hne ⊢
      revert hne
      cases ha : r.audiences with
      | none => intro hne; rfl
      | some auds =>
          intro hne
          by_cases hmem : auds.contains ea = true
          · exfalso
            apply hne
            have hm : ea ∈ auds := by simpa using hmem
            simp [hm]
          · have hm : ea ∉ auds := by simpa using hmem
            simp [hm]
  · intro hea hha
    rw [hv]
    unfold checkAudience
    rw [hea]
    cases hi : v.ignore_audiences <;> simp [hha, hi]

/-- Witness for C3: `audienceValidator` (expects `"a"`) accepts a claim-set
with audiences `["a", "b"]`. -/
theorem C3_audience_witness :
    validate audienceValidator jwtWithAudiencesAB 0 = .ok () :=
  (((C3_audience audienceValidator jwtWithAudiencesAB 0 rfl rfl rfl rfl).1
      "a" rfl).1).mpr ⟨["a", "b"], rfl, by decide⟩

/-- Claim C4: when the time checks pass, with `expected_issuer` set
`validate` passes the issuer check exactly when the claim-set's issuer equals
it, failing with the missing-issuer error on an absent issuer and with the
issuer-mismatch error on a different issuer; with `expected_issuer` not set,
a claim-set carrying an issuer produces an issuer error exactly when
`ignore_issuer` is false; and symmetrically for the subject check (which runs
once the issuer check passes). -/
theorem C4_issuer_subject (v : JwtValidator) (r : RawJwt) (t : Int)
    (hexp : checkExpiration v r (resolveNow v t) = .ok ())
    (hnbf : checkNotBefore v r (resolveNow v t) = .ok ()) :
    (∀ ei, v.expected_issuer = some ei →
      (r.issuer = none → validate v r t = .error (.missingExpectedIssuer ei)) ∧
      (∀ iss, r.issuer = some iss → iss ≠ ei →
        validate v r t = .error (.issuerMismatch ei iss)) ∧
      ((∀ e, e.isIssuerError = true → validate v r t ≠ .error e) ↔
        r.issuer = some ei)) ∧
    (v.expected_issuer = none → r.has_issuer = true →
      ((∃ e, e.isIssuerError = true ∧ validate v r t = .error e) ↔
        v.ignore_issuer = false)) ∧
    (checkIssuer v r = .ok () →
      (∀ es2, v.expected_subject = some es2 →
        (r.subject = none →
          validate v r t = .error (.missingExpectedSubject es2)) ∧
        (∀ sub, r.subject = some sub → sub ≠ es2 →
          validate v r t = .error (.subjectMismatch es2 sub)) ∧
        ((∀ e, e.isSubjectError = true → validate v r t ≠ .error e) ↔
          r.subject = some es2)) ∧
      (v.expected_subject = none → r.has_subject = true →
        ((∃ e, e.isSubjectError = true ∧ validate v r t = .error e) ↔
          v.ignore_subject = false))) := by
  refine ⟨?_, ?_, ?_⟩
  · intro ei hei
    have hmiss : r.issuer = none →
        checkIssuer v r = .error (.missingExpectedIssuer ei) := by
      intro hno
      unfold checkIssuer
      rw [hei, hno]
    have hmis : ∀ iss, r.issuer = some iss → iss ≠ ei →
        checkIssuer v r = .error (.issuerMismatch ei iss) := by
      intro iss hso hne
      unfold checkIssuer
      simp only [hei, hso]
      rw [if_pos (Ne.symm hne)]
    have hok : r.issuer = some ei → checkIssuer v r = .ok () := by
      intro hso
      unfold checkIssuer
      rw [hei, hso]
      simp
    refine ⟨fun hno => validate_iss_error v r t _ hexp hnbf (hmiss hno),
      fun iss hso hne => validate_iss_error v r t _ hexp hnbf
        (hmis iss hso hne), ?_, ?_⟩
    · intro hall
      cases hso : r.issuer with
      | none =>
          exact absurd (validate_iss_error v r t _ hexp hnbf (hmiss hso))
            (hall _ rfl)
      | some iss =>
          by_cases he : iss = ei
          · rw [he]
          · exact absurd (validate_iss_error v r t _ hexp hnbf
              (hmis iss hso he)) (hall _ rfl)
    · intro hso e he hval
      have h2 := validate_issuer_error_inv v r t e he hval
      rw [hok hso] at h2
      cases h2
  · intro hei hha
    constructor
    · rintro ⟨e, he, hval⟩
      have hie := validate_issuer_error_inv v r t e he hval
      unfold checkIssuer at hie
      rw [hei] at hie
      cases hi : v.ignore_issuer
      · rfl
      · rw [hi] at hie
        simp [hha] at hie
    · intro hi
      refine ⟨.unexpectedIssuer, rfl, ?_⟩
      apply validate_iss_error v r t _ hexp hnbf
      unfold checkIssuer
      rw [hei]
      simp [hha, hi]
  · intro hiss
    constructor
    · intro es2 hes
      have hmiss : r.subject = none →
          checkSubject v r = .error (.missingExpectedSubject es2) := by
        intro hno
        unfold checkSubject
        rw [hes, hno]
      have hmis : ∀ sub, r.subject = some sub → sub ≠ es2 →
          checkSubject v r = .error (.subjectMismatch es2 sub) := by
        intro sub hso hne
        unfold checkSubject
        simp only [hes, hso]
        rw [if_pos (Ne.symm hne)]
      have hok : r.subject = some es2 → checkSubject v r = .ok () := by
        intro hso
        unfold checkSubject
        rw [hes, hso]
        simp
      refine ⟨fun hno => validate_sub_error v r t _ hexp hnbf hiss
          (hmiss hno),
        fun sub hso hne => validate_sub_error v r t _ hexp hnbf hiss
          (hmis sub hso hne), ?_, ?_⟩
      · intro hall
        cases hso : r.subject with
        | none =>
            exact absurd (validate_sub_error v r t _ hexp hnbf hiss
              (hmiss hso)) (hall _ rfl)
        | some sub =>
            by_cases he : sub = es2
            · rw [he]
            · exact absurd (validate_sub_error v r t _ hexp hnbf hiss
                (hmis sub hso he)) (hall _ rfl)
      · intro hso e he hval
        have h2 := validate_subject_error_inv v r t e he hval
        rw [hok hso] at h2
        cases h2
    · intro hes hha
      constructor
      · rintro ⟨e, he, hval⟩
        have hse := validate_subject_error_inv v r t e he hval
        unfold checkSubject at hse
        rw [hes] at hse
        cases hi : v.ignore_subject
        · rfl
        · rw [hi] at hse
          simp [hha] at hse
      · intro hi
        refine ⟨.unexpectedSubject, rfl, ?_⟩
        apply validate_sub_error v r t _ hexp hnbf hiss
        unfold checkSubject
        rw [hes]
        simp [hha, hi]

/-- Witness for C4: `issuerValidator` (expects issuer `"idp1"`) rejects a
claim-set with issuer `"x"` with the issuer-mismatch error. -/
theorem C4_issuer_subject_witness :
    validate issuerValidator jwtWithIssuerX 0 =
      .error (.issuerMismatch "idp1" "x") :=
  (((C4_issuer_subject issuerValidator jwtWithIssuerX 0 rfl rfl).1
    "idp1" rfl).2.1) "x" rfl (by decide)

/-- Claim C5: `validate` returns exactly one of success or a single failure,
and the failure it reports is the first violated rule in the fixed
short-circuit order expiration, not-before, issuer, subject, audience.
Configuration errors live in the constructor's separate error channel
(`Except String` in `JwtValidator.init`); `validate`'s failures are `JwtError`
values, so it can never produce a configuration error. -/
theorem C5_first_violated_rule (v : JwtValidator) (r : RawJwt) (t : Int) :
    validate v r t =
      firstFailure [checkExpiration v r (resolveNow v t),
        checkNotBefore v r (resolveNow v t), checkIssuer v r,
        checkSubject v r, checkAudience v r] ∧
    ((validate v r t = .ok ()) ↔ ¬ ∃ e, validate v r t = .error e) := by
  constructor
  · rw [validate_unfold]
    cases checkExpiration v r (resolveNow v t) with
    | error e => rfl
    | ok u =>
        cases u
        cases checkNotBefore v r (resolveNow v t) with
        | error e => rfl
        | ok u2 =>
            cases u2
            cases checkIssuer v r with
            | error e => rfl
            | ok u3 =>
                cases u3
                cases checkSubject v r with
                | error e => rfl
                | ok u4 =>
                    cases u4
                    cases checkAudience v r with
                    | error e => rfl
                    | ok u5 => cases u5; rfl
  · constructor
    · rintro hok ⟨e, herr⟩
      rw [hok] at herr
      cases herr
    · intro hne
      cases hres : validate v r t with
      | ok u => cases u; rfl
      | error e => exact absurd ⟨e, hres⟩ hne

/-- Claim C6, counterexample: against a validator with zero skew and clock
fixed at instant 1000, a claim-set that is both long expired (`exp = 0`) and
not yet valid (`nbf = 2000 > now + skew`) is rejected with the expiration
error, not the not-before error, refuting the claimed "if and only if" for
the not-before failure. -/
theorem C6_counterexample :
    expiredAndNotYetValidJwt.not_before = some 2000 ∧
    resolveNow zeroSkewValidator 0 + zeroSkewValidator.clock_skew < 2000 ∧
    validate zeroSkewValidator expiredAndNotYetValidJwt 0 ≠
      .error (.notBefore 2000) ∧
    validate zeroSkewValidator expiredAndNotYetValidJwt 0 =
      .error (.hasExpired 0) :=
  ⟨rfl, by decide, by decide, by decide⟩

/-- Claim C6 (amended): for a claim-set with a not-before instant `nbf`,
`validate` fails with the not-before error exactly when `nbf > now +
clock_skew` *and the expiration check passes* (the expiration check runs
first and wins otherwise); a claim-set without a not-before and without an
expiration never fails either time check. -/
theorem C6_not_before (v : JwtValidator) (r : RawJwt) (t nbf : Int) :
    (r.not_before = some nbf →
      (validate v r t = .error (.notBefore nbf) ↔
        (checkExpiration v r (resolveNow v t) = .ok () ∧
          resolveNow v t + v.clock_skew < nbf))) ∧
    (r.not_before = none → r.expiration = none →
      ∀ e, e.isTimeError = true → validate v r t ≠ .error e) :=
  ⟨fun h => validate_notBefore_iff v r t nbf h,
   fun h1 h2 e he => validate_no_time_error_of_none v r t e h2 h1 he⟩

/-- Witness for C6: a claim-set with only `nbf = 2000` is rejected as not yet
valid by the zero-skew validator whose clock is fixed at 1000. -/
theorem C6_not_before_witness :
    validate zeroSkewValidator notYetValidJwt 0 = .error (.notBefore 2000) :=
  ((C6_not_before zeroSkewValidator notYetValidJwt 0 2000).1 rfl).mpr
    ⟨rfl, by decide⟩

/-- Claim C7: construction fails whenever `clock_skew` exceeds 10 minutes;
with the other invariants satisfied it succeeds for every `clock_skew` of at
most 10 minutes (storing it as given, including exactly 10 minutes), and an
absent `clock_skew` is stored as zero skew. -/
theorem C7_clock_skew (ei es ea : Option String) (ii igs iga : Bool)
    (cs : Int) (fn : Option Datetime) :
    (_MAX_CLOCK_SKEW < cs →
      (JwtValidator.init ei es ea ii igs iga (some cs) fn).isOk = false) ∧
    ((strTruthy ei && ii) = false → (strTruthy es && igs) = false →
     (strTruthy ea && iga) = false → fixedNowNaive fn = false →
     ((cs ≤ _MAX_CLOCK_SKEW →
        ∃ v, JwtValidator.init ei es ea ii igs iga (some cs) fn = .ok v ∧
          v.clock_skew = cs) ∧
      (∃ v, JwtValidator.init ei es ea ii igs iga none fn = .ok v ∧
        v.clock_skew = 0))) := by
  constructor
  · intro hgt
    cases hok : (JwtValidator.init ei es ea ii igs iga (some cs) fn).isOk
    · rfl
    · exfalso
      obtain ⟨-, -, -, h4, -⟩ :=
        (init_isOk_iff ei es ea ii igs iga (some cs) fn).mp hok
      have h0 : cs ≠ 0 := by
        intro h
        subst h
        exact absurd hgt (by decide)
      unfold _MAX_CLOCK_SKEW at hgt
      simp [tdTruthy, h0, _MAX_CLOCK_SKEW] at h4
      omega
  · intro h1 h2 h3 h4
    constructor
    · intro hle
      have hd : decide ((some cs : Option Int).getD 0 > _MAX_CLOCK_SKEW)
          = false := by
        simp [_MAX_CLOCK_SKEW] at hle ⊢
        omega
      have hcs : (tdTruthy (some cs) &&
          decide ((some cs : Option Int).getD 0 > _MAX_CLOCK_SKEW)) = false := by
        rw [hd, Bool.and_false]
      exact ⟨_, init_ok ei es ea ii igs iga (some cs) fn h1 h2 h3 hcs h4,
        stored_skew cs⟩
    · exact ⟨_, init_ok ei es ea ii igs iga none fn h1 h2 h3 rfl h4, rfl⟩

/-- Witness for C7: a skew of 601 s (> 10 min) is rejected; a skew of exactly
600 s (10 min) is accepted and stored. -/
theorem C7_clock_skew_witness :
    (JwtValidator.init none none none false false false (some 601)
      none).isOk = false ∧
    ∃ v, JwtValidator.init none none none false false false (some 600)
      none = .ok v ∧ v.clock_skew = 600 := by
  constructor
  · exact (C7_clock_skew none none none false false false 601 none).1
      (by decide)
  · exact ((C7_clock_skew none none none false false false 600 none).2
      rfl rfl rfl rfl).1 (by decide)

/-- Claim C8: with `fixed_now` set, `validate` is deterministic — two calls
with the same validator and claim-set (regardless of the ambient clock
readings) yield identical results. -/
theorem C8_deterministic (v : JwtValidator) (r : RawJwt) (t1 t2 : Int)
    (d : Datetime) (h : v.fixed_now = some d) :
    validate v r t1 = validate v r t2 := by
  have hnow : ∀ s : Int, resolveNow v s = d.instant := by
    intro s
    unfold resolveNow
    rw [h]
  rw [validate_unfold, validate_unfold, hnow, hnow]

/-- Witness for C8: two calls at different ambient clock readings agree for
`exampleValidator`, whose clock is fixed. -/
theorem C8_deterministic_witness :
    validate exampleValidator emptyJwt 0 =
      validate exampleValidator emptyJwt 999 :=
  C8_deterministic exampleValidator emptyJwt 0 999 ⟨1000, true⟩ rfl

/-- Claim C9: constructing with an empty-string expectation and the matching
ignore flag set succeeds (the empty string is falsy, so the mutual-exclusion
guard does not fire), yet `has_expected_*` reports true, and `validate`
takes the expected-value branch, ignoring the ignore flag — for all three of
issuer, subject, audience. -/
theorem C9_empty_string_expectations :
    (JwtValidator.init (some "") none none true false false none none =
        .ok emptyIssuerValidator ∧
      emptyIssuerValidator.has_expected_issuer = true ∧
      emptyIssuerValidator.ignore_issuer = true ∧
      validate emptyIssuerValidator jwtWithIssuerX 0 =
        .error (.issuerMismatch "" "x") ∧
      validate emptyIssuerValidator emptyJwt 0 =
        .error (.missingExpectedIssuer "")) ∧
    (JwtValidator.init none (some "") none false true false none none =
        .ok emptySubjectValidator ∧
      emptySubjectValidator.has_expected_subject = true ∧
      emptySubjectValidator.ignore_subject = true ∧
      validate emptySubjectValidator jwtWithSubjectX 0 =
        .error (.subjectMismatch "" "x")) ∧
    (JwtValidator.init none none (some "") false false true none none =
        .ok emptyAudienceValidator ∧
      emptyAudienceValidator.has_expected_audience = true ∧
      emptyAudienceValidator.ignore_audiences = true ∧
      validate emptyAudienceValidator jwtWithAudienceX 0 =
        .error (.missingExpectedAudience "")) := by
  decide

/-- Claim C10: construction succeeds for every strictly negative
`clock_skew` (no lower bound is enforced) and stores the negative value
as-is; the expiration check then compares `exp ≤ now − clock_skew`, whose
threshold `now − clock_skew` lies strictly after `now`, narrowing the
accepted window. -/
theorem C10_negative_clock_skew (ei es ea : Option String)
    (ii igs iga : Bool) (cs : Int) (fn : Option Datetime) (t : Int)
    (hneg : cs < 0)
    (h1 : (strTruthy ei && ii) = false) (h2 : (strTruthy es && igs) = false)
    (h3 : (strTruthy ea && iga) = false) (h4 : fixedNowNaive fn = false) :
    ∃ v, JwtValidator.init ei es ea ii igs iga (some cs) fn = .ok v ∧
      v.clock_skew = cs ∧
      (∀ s : Int, resolveNow v s < resolveNow v s - v.clock_skew) ∧
      ∀ (r : RawJwt) (exp : Int), r.expiration = some exp →
        (validate v r t = .error (.hasExpired exp) ↔
          exp ≤ resolveNow v t - cs) := by
  have hd : decide ((some cs : Option Int).getD 0 > _MAX_CLOCK_SKEW)
      = false := by
    simp [_MAX_CLOCK_SKEW]
    omega
  have hcs : (tdTruthy (some cs) &&
      decide ((some cs : Option Int).getD 0 > _MAX_CLOCK_SKEW)) = false := by
    rw [hd, Bool.and_false]
  have hinit : JwtValidator.init ei es ea ii igs iga (some cs) fn =
      .ok { expected_issuer := ei, expected_subject := es,
            expected_audience := ea, ignore_issuer := ii,
            ignore_subject := igs, ignore_audiences := iga,
            clock_skew := cs, fixed_now := fn } := by
    rw [init_ok ei es ea ii igs iga (some cs) fn h1 h2 h3 hcs h4,
      stored_skew cs]
  refine ⟨_, hinit, rfl, ?_, ?_⟩
  · intro s
    show resolveNow _ s < resolveNow _ s - cs
    omega
  · intro r exp hexp2
    rw [validate_expired_iff _ r t exp hexp2]

/-- Witness for C10: a skew of −60 s is accepted and stored as-is, with the
expiration threshold `now + 60`. -/
theorem C10_negative_clock_skew_witness :
    ∃ v, JwtValidator.init none none none false false false (some (-60))
        none = .ok v ∧ v.clock_skew = -60 ∧
      (∀ s : Int, resolveNow v s < resolveNow v s - v.clock_skew) ∧
      ∀ (r : RawJwt) (exp : Int), r.expiration = some exp →
        (validate v r 0 = .error (.hasExpired exp) ↔
          exp ≤ resolveNow v 0 - (-60)) :=
  C10_negative_clock_skew none none none false false false (-60) none 0
    (by decide) rfl rfl rfl rfl
